import Mathlib

/-!
Shallow embedding of the model-gateway decision pipeline
(`src/gateway/app/{models,auth,rate_limiting,providers}.py` and
`src/gateway/main.py`).

Conventions of the embedding:
* database tables are lists of rows; SQLAlchemy queries become list
  filters in the iteration order of the row lists, `.first()` is `head?`,
  `.scalar_one_or_none()` distinguishes zero / one / many matches;
* Python `int(time.time())` is a `Nat` passed explicitly as `now`;
* a raised `HTTPException(status, detail, headers)` is
  `GatewayError.httpError`; any other uncaught Python exception is
  `GatewayError.unhandled` (FastAPI surfaces it as HTTP 500, cf. the
  middleware in `main.py` which logs `status_code: 500` on that path);
* the Redis connection is a `RedisState`: an association list of counters,
  one of expiries, and a reachability flag; an unreachable store makes
  `incr` raise (`redis.exceptions.ConnectionError`), which the gateway
  does not catch;
* the f-string Redis key `rl:{user}:{mv}:{bucket}` is the structure
  `RKey` (the formatting is injective, UUID strings contain no colon);
* JSON values are `JVal`; iterating a Python non-list inside the
  `try` of `call_openai` raises and is mapped to `.error ()` (an empty
  string or empty dict iterates zero times and falls through).
-/

namespace Gateway

deriving instance DecidableEq for Except

/-- Row of table `users` (`models.py`, class `User`); only the columns the
gateway reads. Ids are the opaque UUID strings. -/
structure User where
  id : String
  username : String
deriving DecidableEq, Repr

/-- Row of table `user_groups` (`models.py`, class `UserGroup`). -/
structure UserGroup where
  user_id : String
  group_id : String
deriving DecidableEq, Repr

/-- Row of table `rate_limit_policies` (`models.py`, class
`RateLimitPolicy`). `window_seconds` and `max_requests` are nonnegative
integers as seeded (e.g. 300 and 120). -/
structure RateLimitPolicy where
  id : String
  window_seconds : Nat
  max_requests : Nat
deriving DecidableEq, Repr

/-- Row of table `group_model_permissions` (`models.py`, class
`GroupModelPermission`): group + model_version => allowed/disallowed,
plus an optional rate-limit policy (`policy_id` nullable). -/
structure GroupModelPermission where
  id : String
  group_id : String
  model_version_id : String
  allowed : Bool
  policy_id : Option String
deriving DecidableEq, Repr

/-- Row of table `models` (`models.py`, class `Model`); `name` is unique. -/
structure Model where
  id : String
  name : String
deriving DecidableEq, Repr

/-- Row of table `model_versions` (`models.py`, class `ModelVersion`). -/
structure ModelVersion where
  id : String
  model_id : String
  version : String
  provider : String
  provider_account_id : String
  internal_endpoint_url : Option String
deriving DecidableEq, Repr

/-- Row of table `provider_accounts` (`models.py`, class
`ProviderAccount`). `api_key` is nullable. -/
structure ProviderAccount where
  id : String
  provider : String
  api_key : Option String
deriving DecidableEq, Repr

/-- The relational state the gateway queries (the directory). -/
structure Db where
  users : List User
  user_groups : List UserGroup
  group_model_permissions : List GroupModelPermission
  rate_limit_policies : List RateLimitPolicy
  models : List Model
  model_versions : List ModelVersion
  provider_accounts : List ProviderAccount
deriving DecidableEq, Repr

/-- An error escaping a request handler: either a raised
`fastapi.HTTPException` (with optional `Retry-After` header value), or any
other uncaught exception, which FastAPI turns into HTTP 500. -/
inductive GatewayError where
  | httpError (statusCode : Nat) (detail : String) (retryAfter : Option Nat)
  | unhandled (msg : String)
deriving DecidableEq, Repr

/-- HTTP status a `GatewayError` surfaces as (uncaught exceptions
surface as 500, cf. the middleware's `status_code: 500` log field). -/
def GatewayError.status : GatewayError → Nat
  | .httpError s _ _ => s
  | .unhandled _ => 500

/-- `Principal` (pydantic model in `app/auth.py`). -/
structure Principal where
  id : String
  username : String
deriving DecidableEq, Repr

/-! ## Association-list helpers (dict / Redis key-value semantics) -/

/-- Store `v` under key `k`: overwrite the first binding of `k`, else
append. Models assignment into a Python dict / Redis SET. -/
def setAssoc {α β : Type} [BEq α] : List (α × β) → α → β → List (α × β)
  | [], k, v => [(k, v)]
  | (k', v') :: t, k, v =>
    if k' == k then (k, v) :: t else (k', v') :: setAssoc t k v

/-- Read the binding of `k`, if any. -/
def getAssoc {α β : Type} [BEq α] (l : List (α × β)) (k : α) : Option β :=
  (l.find? (fun e => e.1 == k)).map Prod.snd

/-! ## Redis (shared counter store) -/

/-- The Redis key `f"rl:{user_id}:{model_version_id}:{bucket}"`
(`rate_limiting.py` line 54); the formatting is injective so the key is
kept structured. -/
structure RKey where
  user_id : String
  model_version_id : String
  bucket : Nat
deriving DecidableEq, Repr

/-- State of the shared counter store, plus whether it is reachable. -/
structure RedisState where
  reachable : Bool
  counters : List (RKey × Nat)
  expiries : List (RKey × Nat)
deriving DecidableEq, Repr

/-- Current value of a counter; an absent key reads as 0 (Redis INCR
semantics). -/
def counterVal (r : RedisState) (k : RKey) : Nat :=
  (getAssoc r.counters k).getD 0

/-- `await redis.incr(key)`: atomically increment and return the new
value; raises if the store is unreachable. -/
def redisIncr (r : RedisState) (k : RKey) :
    Except GatewayError (Nat × RedisState) :=
  if r.reachable then
    let c := counterVal r k + 1
    .ok (c, { r with counters := setAssoc r.counters k c })
  else
    .error (.unhandled "redis.exceptions.ConnectionError")

/-- `await redis.expire(key, seconds)`. -/
def redisExpire (r : RedisState) (k : RKey) (seconds : Nat) :
    Except GatewayError RedisState :=
  if r.reachable then
    .ok { r with expiries := setAssoc r.expiries k seconds }
  else
    .error (.unhandled "redis.exceptions.ConnectionError")

/-! ## Policy lookup and cache (`rate_limiting.py`) -/

/-- The join of `_get_policy_from_db` (lines 20-30):
`RateLimitPolicy JOIN GroupModelPermission ON rlp.id = gmp.policy_id
JOIN ModelVersion ON gmp.model_version_id = mv.id
JOIN UserGroup ON gmp.group_id = ug.group_id
WHERE ug.user_id = user_id AND mv.id = model_version_id`.
Note: the query never filters on `GroupModelPermission.allowed`, and the
inner join drops every permission row whose `policy_id` is NULL. -/
def joinRows (db : Db) (user_id model_version_id : String) :
    List RateLimitPolicy :=
  db.rate_limit_policies.filter (fun p =>
    db.group_model_permissions.any (fun gmp =>
      gmp.policy_id == some p.id &&
      db.model_versions.any (fun mv =>
        gmp.model_version_id == mv.id && mv.id == model_version_id) &&
      db.user_groups.any (fun ug =>
        gmp.group_id == ug.group_id && ug.user_id == user_id)))

/-- A permission row is applicable to (user, model version) when it
satisfies the non-policy join conditions of `_get_policy_from_db`: its
`model_version_id` names the requested model version (present in the
table) and its `group_id` is one of the user's groups. This is exactly
the sub-conjunction of the `joinRows` predicate after `policy_id`. -/
def applicablePerm (db : Db) (user_id model_version_id : String)
    (gmp : GroupModelPermission) : Bool :=
  db.model_versions.any (fun mv =>
    gmp.model_version_id == mv.id && mv.id == model_version_id) &&
  db.user_groups.any (fun ug =>
    gmp.group_id == ug.group_id && ug.user_id == user_id)

/-- `_get_policy_from_db` (`rate_limiting.py` lines 17-33): `.first()` of
the join, and `raise Exception("No rate limit policy found.")` when the
result is falsy. -/
def get_policy_from_db (db : Db) (user_id model_version_id : String) :
    Except GatewayError RateLimitPolicy :=
  match (joinRows db user_id model_version_id).head? with
  | some p => .ok p
  | none => .error (.unhandled "No rate limit policy found.")

/-- The module-level `_policy_cache` dict:
key `(user_id, model_version_id)`, value `(expiry_epoch, policy)`. -/
abbrev PolicyCache : Type := List ((String × String) × (Nat × RateLimitPolicy))

/-- `CACHE_TTL = 5*60.0` seconds. -/
def CACHE_TTL : Nat := 5 * 60

/-- The miss path of `get_policy_cached` (lines 42-45): fetch from the
DB, then write `(now + CACHE_TTL, policy)` into the cache. On a raised
exception nothing is cached. Returns the policy, the new cache, and the
number of DB queries made (the observable call counter). -/
def policyFetch (db : Db) (cache : PolicyCache) (now : Nat)
    (user_id model_version_id : String) :
    Except GatewayError (RateLimitPolicy × PolicyCache × Nat) :=
  match get_policy_from_db db user_id model_version_id with
  | .error e => .error e
  | .ok p =>
    .ok (p, setAssoc cache (user_id, model_version_id) (now + CACHE_TTL, p), 1)

/-- `get_policy_cached` (`rate_limiting.py` lines 35-45): serve from the
cache when a binding exists and `cached[0] > now`, else fall through to
the DB fetch. -/
def get_policy_cached (db : Db) (cache : PolicyCache) (now : Nat)
    (user_id model_version_id : String) :
    Except GatewayError (RateLimitPolicy × PolicyCache × Nat) :=
  match getAssoc cache (user_id, model_version_id) with
  | some (exp, p) =>
    if now < exp then .ok (p, cache, 0)
    else policyFetch db cache now user_id model_version_id
  | none => policyFetch db cache now user_id model_version_id

/-! ## Rate limiter (`rate_limiting.py`, `enforce_rate_limit`) -/

/-- Lines 49-68 of `enforce_rate_limit`, after the policy has been
resolved: compute the bucket, INCR the counter, set the expiry on the
first hit of the window, and raise HTTP 429 with
`Retry-After: window_seconds - (now % window_seconds)` when the
post-increment count exceeds `max_requests`. The store state reached
before an exception is kept (Python mutates Redis before raising). -/
def rateCheck (policy : RateLimitPolicy) (r : RedisState) (now : Nat)
    (user_id model_version_id : String) :
    Except GatewayError Unit × RedisState :=
  let window_seconds := policy.window_seconds
  let max_requests := policy.max_requests
  let bucket := now / window_seconds
  let key : RKey := ⟨user_id, model_version_id, bucket⟩
  match redisIncr r key with
  | .error e => (.error e, r)
  | .ok (count, r1) =>
    match (if count == 1 then redisExpire r1 key (window_seconds + 5)
           else .ok r1) with
    | .error e => (.error e, r1)
    | .ok r2 =>
      if count > max_requests then
        (.error (.httpError 429 "Rate limit exceeded"
          (some (window_seconds - now % window_seconds))), r2)
      else
        (.ok (), r2)

/-- Mutable state touched by one gateway process: the policy cache, the
shared store, and a test-double counter of policy DB queries. -/
structure GwState where
  cache : PolicyCache
  redis : RedisState
  dbCalls : Nat
deriving DecidableEq

/-- `enforce_rate_limit` (`rate_limiting.py` lines 47-68): resolve the
policy through the cache, then run the window check. A failed resolution
always reached the DB (the cache-hit branch cannot raise), so the
query counter advances by one on that path too. -/
def enforce_rate_limit (db : Db) (st : GwState) (now : Nat)
    (user_id model_version_id : String) :
    Except GatewayError Unit × GwState :=
  match get_policy_cached db st.cache now user_id model_version_id with
  | .error e => (.error e, { st with dbCalls := st.dbCalls + 1 })
  | .ok (policy, cache', n) =>
    let st1 : GwState :=
      { cache := cache', redis := st.redis, dbCalls := st.dbCalls + n }
    let (res, r') := rateCheck policy st1.redis now user_id model_version_id
    (res, { st1 with redis := r' })

/-- Run `enforce_rate_limit` once per clock time in `ts`, threading the
state; returns the list of per-call outcomes and the final state. -/
def enforceRun (db : Db) (user_id model_version_id : String) :
    GwState → List Nat → List (Except GatewayError Unit) × GwState
  | st, [] => ([], st)
  | st, t :: ts =>
    let (res, st') := enforce_rate_limit db st t user_id model_version_id
    let (rest, stf) := enforceRun db user_id model_version_id st' ts
    (res :: rest, stf)

/-! ## Provider adapter (`providers.py`, `call_openai`) -/

/-- A JSON value, as returned by `r.json()`. -/
inductive JVal where
  | str (s : String)
  | num (n : Int)
  | boolean (b : Bool)
  | null
  | arr (xs : List JVal)
  | obj (fields : List (String × JVal))

/-- `d.get(k)` on a Python dict with string keys (JSON objects have
distinct keys, so the first binding is the binding). -/
def lookupField (fields : List (String × JVal)) (k : String) : Option JVal :=
  (fields.find? (fun e => e.1 == k)).map Prod.snd

/-- The inner loop of `call_openai` (lines 33-35):
`for c in content: if c.get("type") == "output_text" and
isinstance(c.get("text"), str): return c["text"]`.
`.ok (some t)` is a `return t`; `.ok none` is the loop ending without a
return; `.error ()` is a raised exception (a non-dict `c` has no `.get`). -/
def contentScan : List JVal → Except Unit (Option String)
  | [] => .ok none
  | c :: rest =>
    match c with
    | .obj fs =>
      if (match lookupField fs "type" with
          | some (.str t) => t == "output_text"
          | _ => false) then
        match lookupField fs "text" with
        | some (.str t) => .ok (some t)
        | _ => contentScan rest
      else contentScan rest
    | _ => .error ()

/-- The outer loop of `call_openai` (lines 32-35):
`for item in data.get("output", []): for c in item.get("content", []): ...`.
Iterating a non-list raises unless it yields zero elements (an empty
string or empty dict), in which case the loop body never runs. -/
def itemScan : List JVal → Except Unit (Option String)
  | [] => .ok none
  | item :: rest =>
    match item with
    | .obj fs =>
      match (lookupField fs "content").getD (.arr []) with
      | .arr cs =>
        match contentScan cs with
        | .error e => .error e
        | .ok (some t) => .ok (some t)
        | .ok none => itemScan rest
      | .str s => if s.isEmpty then itemScan rest else .error ()
      | .obj gs => if gs.isEmpty then itemScan rest else .error ()
      | _ => .error ()
    | _ => .error ()

/-- The whole extraction `try` block of `call_openai` (lines 31-35),
over the parsed JSON `data`; `data.get` on a non-dict raises inside the
`try`. -/
def extractOutputText (data : JVal) : Except Unit (Option String) :=
  match data with
  | .obj fs =>
    match (lookupField fs "output").getD (.arr []) with
    | .arr items => itemScan items
    | .str s => if s.isEmpty then .ok none else .error ()
    | .obj gs => if gs.isEmpty then .ok none else .error ()
    | _ => .error ()
  | _ => .error ()

/-- Outcome of the `httpx` POST to the upstream API: either a raised
transport exception (uncaught in `call_openai`), or a response with a
status code, a body text, and the body parsed as JSON when `r.json()`
succeeds (`none` models a `ValueError` from `r.json()`). -/
inductive HttpxResult where
  | transportError (msg : String)
  | response (statusCode : Nat) (bodyText : String) (body : Option JVal)

/-- `call_openai` (`providers.py` lines 7-38). The return value is
`Option String` because the Python function is annotated `-> str` but
falls off the end (returning `None`) when no `output_text` item with a
string `text` is found. `if not account.api_key` treats both NULL and an
empty string as missing. -/
def call_openai (account : Option ProviderAccount)
    (upstream_model text : String) (resp : HttpxResult) :
    Except GatewayError (Option String) :=
  match account with
  | none => .error (.unhandled "AttributeError: NoneType has no api_key")
  | some a =>
    if (a.api_key.getD "") == "" then
      .error (.httpError 500 "ProviderAccount.api_key is missing for OpenAI" none)
    else
      match resp with
      | .transportError msg => .error (.unhandled msg)
      | .response statusCode bodyText body =>
        if statusCode ≥ 400 then
          .error (.httpError 502
            ("OpenAI error " ++ toString statusCode ++ ": " ++ bodyText.take 500)
            none)
        else
          match body with
          | none => .error (.httpError 502
              ("Invalid JSON from OpenAI: " ++ bodyText.take 500) none)
          | some data =>
            match extractOutputText data with
            | .error _ => .error (.httpError 502
                ("Invalid response from OpenAI: " ++ bodyText.take 500) none)
            | .ok r => .ok r

/-! ## Gateway endpoint (`main.py`, `infer`) -/

/-- The model-version lookup of `infer` (lines 135-146):
`SELECT ModelVersion WHERE version = :version AND
model_versions.model has Model.name = :model_name`. -/
def modelVersionLookup (db : Db) (model_name version : String) :
    List ModelVersion :=
  db.model_versions.filter (fun mv =>
    mv.version == version &&
    db.models.any (fun mo => mo.id == mv.model_id && mo.name == model_name))

/-- `infer` (`main.py` lines 127-168): resolve the model version
(404 when absent, `scalar_one_or_none` raises on a duplicate), enforce
the rate limit, route on `mv.provider` ("openai" dispatches upstream,
anything else raises HTTP 400), and validate the response model
(`PredictResponse.output : str` rejects a `None` output, an uncaught
pydantic error). The caller's clock and the upstream outcome are passed
explicitly. -/
def infer (db : Db) (st : GwState) (now : Nat) (principal_id : String)
    (model_name version text : String) (upstream : HttpxResult) :
    Except GatewayError String × GwState :=
  match modelVersionLookup db model_name version with
  | [] => (.error (.httpError 404 "Unknown model/version" none), st)
  | [mv] =>
    let (res, st1) := enforce_rate_limit db st now principal_id mv.id
    match res with
    | .error e => (.error e, st1)
    | .ok _ =>
      if mv.provider == "openai" then
        let account := db.provider_accounts.find?
          (fun a => a.id == mv.provider_account_id)
        let upstreamModel :=
          ((db.models.find? (fun mo => mo.id == mv.model_id)).map
            Model.name).getD ""
        match call_openai account upstreamModel text upstream with
        | .error e => (.error e, st1)
        | .ok (some out) => (.ok out, st1)
        | .ok none =>
          (.error (.unhandled "pydantic ValidationError: output must be a string"), st1)
      else
        (.error (.httpError 400 ("Unsupported provider: " ++ mv.provider) none), st1)
  | _ :: _ :: _ => (.error (.unhandled "MultipleResultsFound"), st)

/-! ## Authentication (`app/auth.py`, `authenticate_request`) -/

/-- Outcome of `jwt.decode(token, SECRET_KEY, algorithms=[ALGORITHM])`:
the claims dict on success, `ExpiredSignatureError`, or any other
`InvalidTokenError` (bad signature, malformed token, ...). -/
inductive JwtDecode where
  | valid (payload : List (String × JVal))
  | expired
  | invalid

/-- `authenticate_request` (`app/auth.py` lines 84-113), parameterised
over the boundary function `uuidParse` (`uuid.UUID(sub)`: `some` of the
canonical id string on success, `none` when `ValueError` is raised) and
the decode outcome of the presented token. The `sub` claim must be a
string, parse as a UUID, and name a user present in the directory; every
failure is HTTP 401. -/
def authenticate_request (db : Db) (uuidParse : String → Option String)
    (decoded : JwtDecode) : Except GatewayError Principal :=
  match decoded with
  | .expired => .error (.httpError 401 "Token expired" none)
  | .invalid => .error (.httpError 401 "Could not validate credentials" none)
  | .valid payload =>
    match lookupField payload "sub" with
    | some (.str sub) =>
      match uuidParse sub with
      | none => .error (.httpError 401 "Could not validate credentials" none)
      | some user_id =>
        match db.users.find? (fun u => u.id == user_id) with
        | none => .error (.httpError 401 "Could not validate credentials" none)
        | some u => .ok { id := u.id, username := u.username }
    | _ => .error (.httpError 401 "Could not validate credentials" none)

/-! ## Concrete fixtures (seed-style directory states used in examples) -/

/-- A well-formed upstream response body holding one `output_text` item. -/
def okJson : JVal :=
  .obj [("output", .arr [.obj [("content", .arr
    [.obj [("type", .str "output_text"), ("text", .str "hello")]])]])]

/-- A 200 upstream response carrying `okJson`. -/
def okResp : HttpxResult := .response 200 "raw" (some okJson)

/-- An OpenAI provider account with an API key present. -/
def acct1 : ProviderAccount := ⟨"acct1", "openai", some "sk-test"⟩

/-- A 60-second window, 2-requests policy. -/
def pol1 : RateLimitPolicy := ⟨"pol1", 60, 2⟩

/-- A policy different from `pol1`, used as a stale cache value. -/
def polStale : RateLimitPolicy := ⟨"polStale", 999, 1⟩

/-- Directory state: user `u1` in group `g1`; `g1` has a permission row
for model version `mv1` with `allowed = true` and policy `pol1`;
`mv1` is version `v1` of model `gpt-4o-mini` on provider `openai`. -/
def allowDb : Db :=
  { users := [⟨"u1", "sys"⟩]
    user_groups := [⟨"u1", "g1"⟩]
    group_model_permissions := [⟨"gmp1", "g1", "mv1", true, some "pol1"⟩]
    rate_limit_policies := [pol1]
    models := [⟨"mo1", "gpt-4o-mini"⟩]
    model_versions := [⟨"mv1", "mo1", "v1", "openai", "acct1", none⟩]
    provider_accounts := [acct1] }

/-- Like `allowDb` but the permission row has `allowed = false`
(an explicit deny row, still carrying `pol1`). -/
def denyDb : Db :=
  { allowDb with
    group_model_permissions := [⟨"gmp1", "g1", "mv1", false, some "pol1"⟩] }

/-- Like `allowDb` but with no permission row at all. -/
def noRowDb : Db := { allowDb with group_model_permissions := [] }

/-- Like `allowDb` but the (allowed) permission row carries no policy
(`policy_id` NULL: the spec's "unlimited" shape). -/
def unlimitedDb : Db :=
  { allowDb with
    group_model_permissions := [⟨"gmp1", "g1", "mv1", true, none⟩] }

/-- A mixed directory (seed-style): the row applicable to `mv1` carries
no policy (`policy_id` NULL), while another row of the same group for a
second model version `mv2` carries `pol1`, which sits in the policy
table. -/
def mixedDb : Db :=
  { allowDb with
    group_model_permissions :=
      [⟨"gmp1", "g1", "mv1", true, none⟩,
       ⟨"gmp2", "g1", "mv2", true, some "pol1"⟩]
    model_versions :=
      [⟨"mv1", "mo1", "v1", "openai", "acct1", none⟩,
       ⟨"mv2", "mo1", "v2", "openai", "acct1", none⟩] }

/-- User `u1` is in two groups with conflicting rows for `mv1`:
`g1` denies (policy `p1`, max 0), `g2` allows (policy `p2`, max 1000). -/
def conflictDb : Db :=
  { allowDb with
    user_groups := [⟨"u1", "g1"⟩, ⟨"u1", "g2"⟩]
    group_model_permissions :=
      [⟨"gmp1", "g1", "mv1", false, some "p1"⟩,
       ⟨"gmp2", "g2", "mv1", true, some "p2"⟩]
    rate_limit_policies := [⟨"p1", 60, 0⟩, ⟨"p2", 60, 1000⟩] }

/-- The same directory rows as `conflictDb`, with the policy table
listed in the opposite order. -/
def conflictDbSwapped : Db :=
  { conflictDb with
    rate_limit_policies := conflictDb.rate_limit_policies.reverse }

/-- Like `allowDb` but `mv1` is bound to provider kind `anthropic`
(not a recognized variant of the routing branch). -/
def anthropicDb : Db :=
  { allowDb with
    model_versions := [⟨"mv1", "mo1", "v1", "anthropic", "acct1", none⟩] }

/-- Fresh gateway state: empty policy cache, reachable empty store. -/
def st0 : GwState := ⟨[], ⟨true, [], []⟩, 0⟩

/-- Gateway state whose shared counter store is unreachable. -/
def stUnreach : GwState := ⟨[], ⟨false, [], []⟩, 0⟩

/-! ## Helper lemmas -/

/-- Reading back the key just stored. -/
theorem getAssoc_setAssoc_self {α β : Type} [BEq α] [LawfulBEq α]
    (l : List (α × β)) (k : α) (v : β) :
    getAssoc (setAssoc l k v) k = some v := by
  induction l with
  | nil => simp [getAssoc, setAssoc, List.find?]
  | cons hd tl ih =>
    by_cases h : hd.1 == k
    · simp [getAssoc, setAssoc, List.find?, h]
    · simpa [getAssoc, setAssoc, List.find?, h] using ih

/-- Equation: a cache hit that has not expired is served immediately. -/
theorem get_policy_cached_hit (db : Db) (cache : PolicyCache) (now : Nat)
    (u m : String) (exp : Nat) (p : RateLimitPolicy)
    (hc : getAssoc cache (u, m) = some (exp, p)) (hlt : now < exp) :
    get_policy_cached db cache now u m = .ok (p, cache, 0) := by
  unfold get_policy_cached
  rw [hc]
  exact if_pos hlt

/-- Equation: no cache binding falls through to the DB fetch. -/
theorem get_policy_cached_missNone (db : Db) (cache : PolicyCache) (now : Nat)
    (u m : String) (hc : getAssoc cache (u, m) = none) :
    get_policy_cached db cache now u m = policyFetch db cache now u m := by
  unfold get_policy_cached
  rw [hc]

/-- Equation: a binding at or past its expiry falls through to the DB
fetch. -/
theorem get_policy_cached_missExpired (db : Db) (cache : PolicyCache)
    (now : Nat) (u m : String) (exp : Nat) (p : RateLimitPolicy)
    (hc : getAssoc cache (u, m) = some (exp, p)) (hge : ¬ now < exp) :
    get_policy_cached db cache now u m = policyFetch db cache now u m := by
  unfold get_policy_cached
  rw [hc]
  exact if_neg hge

/-- Equation: a successful DB fetch caches `(now + CACHE_TTL, p)`. -/
theorem policyFetch_ok (db : Db) (cache : PolicyCache) (now : Nat)
    (u m : String) (p : RateLimitPolicy)
    (hdb : get_policy_from_db db u m = .ok p) :
    policyFetch db cache now u m =
      .ok (p, setAssoc cache (u, m) (now + CACHE_TTL, p), 1) := by
  unfold policyFetch
  rw [hdb]

/-- Equation: a failed DB fetch propagates, caching nothing. -/
theorem policyFetch_err (db : Db) (cache : PolicyCache) (now : Nat)
    (u m : String) (e : GatewayError)
    (hdb : get_policy_from_db db u m = .error e) :
    policyFetch db cache now u m = .error e := by
  unfold policyFetch
  rw [hdb]

/-- The policy query only ever fails with the bare
`Exception("No rate limit policy found.")`. -/
theorem get_policy_from_db_error (db : Db) (u m : String) (e : GatewayError)
    (h : get_policy_from_db db u m = .error e) :
    e = .unhandled "No rate limit policy found." := by
  unfold get_policy_from_db at h
  rcases hj : (joinRows db u m).head? with _ | p <;> rw [hj] at h
  · exact (Except.error.inj h).symm
  · cases h

/-- A failed `get_policy_cached` is always the bare
`Exception("No rate limit policy found.")` from the DB query. -/
theorem get_policy_cached_error (db : Db) (cache : PolicyCache) (now : Nat)
    (u m : String) (e : GatewayError)
    (h : get_policy_cached db cache now u m = .error e) :
    e = .unhandled "No rate limit policy found." := by
  rcases hdb : get_policy_from_db db u m with e' | p
  · exact get_policy_from_db_error db u m e' hdb ▸
      get_policy_from_db_error db u m e (by
        rcases hc : getAssoc cache (u, m) with _ | ⟨exp, q⟩
        · rw [get_policy_cached_missNone db cache now u m hc,
            policyFetch_err db cache now u m e' hdb] at h
          exact (Except.error.inj h) ▸ hdb
        · by_cases hlt : now < exp
          · rw [get_policy_cached_hit db cache now u m exp q hc hlt] at h
            cases h
          · rw [get_policy_cached_missExpired db cache now u m exp q hc hlt,
              policyFetch_err db cache now u m e' hdb] at h
            exact (Except.error.inj h) ▸ hdb)
  · exfalso
    rcases hc : getAssoc cache (u, m) with _ | ⟨exp, q⟩
    · rw [get_policy_cached_missNone db cache now u m hc,
        policyFetch_ok db cache now u m p hdb] at h
      cases h
    · by_cases hlt : now < exp
      · rw [get_policy_cached_hit db cache now u m exp q hc hlt] at h
        cases h
      · rw [get_policy_cached_missExpired db cache now u m exp q hc hlt,
          policyFetch_ok db cache now u m p hdb] at h
        cases h

/-- Whenever the DB join resolves to `p` and the cache holds nothing
contradicting it, `get_policy_cached` returns `p`, with a cache still
consistent with `p`. -/
theorem get_policy_cached_spec (db : Db) (cache : PolicyCache) (now : Nat)
    (u m : String) (p : RateLimitPolicy)
    (hdb : get_policy_from_db db u m = .ok p)
    (hcache : ∀ e q, getAssoc cache (u, m) = some (e, q) → q = p) :
    ∃ cache' n, get_policy_cached db cache now u m = .ok (p, cache', n) ∧
      (∀ e q, getAssoc cache' (u, m) = some (e, q) → q = p) := by
  have hset : ∀ e' q', getAssoc (setAssoc cache (u, m) (now + CACHE_TTL, p)) (u, m)
      = some (e', q') → q' = p := by
    intro e' q' h'
    rw [getAssoc_setAssoc_self] at h'
    exact ((Prod.mk.injEq ..).mp (Option.some.inj h').symm).2
  rcases hc : getAssoc cache (u, m) with _ | ⟨exp, q⟩
  · exact ⟨_, _, by
      rw [get_policy_cached_missNone db cache now u m hc,
        policyFetch_ok db cache now u m p hdb], hset⟩
  · have hq : q = p := hcache exp q hc
    by_cases hlt : now < exp
    · exact ⟨cache, 0, by
        rw [get_policy_cached_hit db cache now u m exp q hc hlt, hq], hcache⟩
    · exact ⟨_, _, by
        rw [get_policy_cached_missExpired db cache now u m exp q hc hlt,
          policyFetch_ok db cache now u m p hdb], hset⟩

/-- One reachable-store window check: the counter moves from `k` to
`k + 1`, a denial carries
`Retry-After: window_seconds - now % window_seconds`, and the call is
denied exactly when the post-increment count exceeds `max_requests`. -/
theorem rateCheck_step (policy : RateLimitPolicy) (r : RedisState)
    (now : Nat) (u m : String) (k : Nat)
    (hr : r.reachable = true)
    (hk : counterVal r ⟨u, m, now / policy.window_seconds⟩ = k) :
    ∃ r', rateCheck policy r now u m =
        (if k + 1 > policy.max_requests then
          (.error (.httpError 429 "Rate limit exceeded"
            (some (policy.window_seconds - now % policy.window_seconds))), r')
         else (.ok (), r')) ∧
      r'.reachable = true ∧
      counterVal r' ⟨u, m, now / policy.window_seconds⟩ = k + 1 := by
  unfold rateCheck redisIncr redisExpire
  simp only [hr, if_true, hk]
  rcases k with _ | k'
  · have h0 : ((0 + 1 : Nat) == 1) = true := rfl
    simp only [h0, eq_self_iff_true, if_true]
    exact ⟨_, rfl, rfl, by
      simp only [counterVal, getAssoc_setAssoc_self, Option.getD_some]⟩
  · have h1 : (k' + 1 + 1 == 1) = false := by simp
    simp only [h1, Bool.false_eq_true, if_false]
    exact ⟨_, rfl, rfl, by
      simp only [counterVal, getAssoc_setAssoc_self, Option.getD_some]⟩



theorem enforce_step_allowed (db : Db) (u m : String) (p : RateLimitPolicy)
    (w : Nat) (st : GwState) (t k : Nat)
    (hdb : get_policy_from_db db u m = .ok p)
    (hw : t / p.window_seconds = w)
    (hreach : st.redis.reachable = true)
    (hcache : ∀ e q, getAssoc st.cache (u, m) = some (e, q) → q = p)
    (hk : counterVal st.redis ⟨u, m, w⟩ = k)
    (hle : k + 1 ≤ p.max_requests) :
    ∃ st', enforce_rate_limit db st t u m = (.ok (), st') ∧
      st'.redis.reachable = true ∧
      (∀ e q, getAssoc st'.cache (u, m) = some (e, q) → q = p) ∧
      counterVal st'.redis ⟨u, m, w⟩ = k + 1 := by
  subst hw
  obtain ⟨cache', n, hres, hcache'⟩ :=
    get_policy_cached_spec db st.cache t u m p hdb hcache
  obtain ⟨r', hrc, hr', hk'⟩ := rateCheck_step p st.redis t u m k hreach hk
  rw [if_neg (by omega : ¬ k + 1 > p.max_requests)] at hrc
  refine ⟨{ cache := cache', redis := r', dbCalls := st.dbCalls + n },
    ?_, hr', hcache', hk'⟩
  unfold enforce_rate_limit
  rw [hres]
  simp only [hrc]

theorem enforce_step_denied (db : Db) (u m : String) (p : RateLimitPolicy)
    (w : Nat) (st : GwState) (t k : Nat)
    (hdb : get_policy_from_db db u m = .ok p)
    (hw : t / p.window_seconds = w)
    (hreach : st.redis.reachable = true)
    (hcache : ∀ e q, getAssoc st.cache (u, m) = some (e, q) → q = p)
    (hk : counterVal st.redis ⟨u, m, w⟩ = k)
    (hgt : p.max_requests < k + 1) :
    ∃ st', enforce_rate_limit db st t u m =
        (.error (.httpError 429 "Rate limit exceeded"
          (some (p.window_seconds - t % p.window_seconds))), st') := by
  subst hw
  obtain ⟨cache', n, hres, hcache'⟩ :=
    get_policy_cached_spec db st.cache t u m p hdb hcache
  obtain ⟨r', hrc, hr', hk'⟩ := rateCheck_step p st.redis t u m k hreach hk
  rw [if_pos (by omega : k + 1 > p.max_requests)] at hrc
  refine ⟨{ cache := cache', redis := r', dbCalls := st.dbCalls + n }, ?_⟩
  unfold enforce_rate_limit
  rw [hres]
  simp only [hrc]

theorem enforceRun_window (db : Db) (u m : String) (p : RateLimitPolicy)
    (w : Nat) (hdb : get_policy_from_db db u m = .ok p) :
    ∀ (ts : List Nat) (st : GwState) (k : Nat),
      (∀ t ∈ ts, t / p.window_seconds = w) →
      st.redis.reachable = true →
      (∀ e q, getAssoc st.cache (u, m) = some (e, q) → q = p) →
      counterVal st.redis ⟨u, m, w⟩ = k →
      k + ts.length ≤ p.max_requests →
      (enforceRun db u m st ts).fst =
          List.replicate ts.length (.ok ()) ∧
        (enforceRun db u m st ts).snd.redis.reachable = true ∧
        (∀ e q, getAssoc (enforceRun db u m st ts).snd.cache (u, m) =
          some (e, q) → q = p) ∧
        counterVal (enforceRun db u m st ts).snd.redis ⟨u, m, w⟩ =
          k + ts.length := by
  intro ts
  induction ts with
  | nil =>
    intro st k _ hreach hcache hk _
    exact ⟨rfl, hreach, hcache, by simpa using hk⟩
  | cons t rest ih =>
    intro st k hts hreach hcache hk hbound
    simp only [List.length_cons] at hbound
    obtain ⟨st', hcall, hr', hcache', hk'⟩ :=
      enforce_step_allowed db u m p w st t k hdb (hts t (by simp)) hreach
        hcache hk (by omega)
    have hrest := ih st' (k + 1) (fun t' ht' => hts t' (by simp [ht']))
      hr' hcache' hk' (by omega)
    have hrun : enforceRun db u m st (t :: rest) =
        ((.ok ()) :: (enforceRun db u m st' rest).fst,
          (enforceRun db u m st' rest).snd) := by
      conv_lhs => rw [enforceRun]
      rw [hcall]
    rw [hrun]
    refine ⟨?_, hrest.2.1, hrest.2.2.1, ?_⟩
    · simp only [List.length_cons, List.replicate_succ]
      exact congrArg (List.cons _) hrest.1
    · simp only [List.length_cons]
      rw [hrest.2.2.2]
      omega

/-- Unfolding one run step over a singleton time list. -/
theorem enforceRun_single (db : Db) (u m : String) (st : GwState) (t : Nat) :
    enforceRun db u m st [t] =
      ([(enforce_rate_limit db st t u m).fst],
        (enforce_rate_limit db st t u m).snd) := rfl

/-- Sequencing runs over concatenated time lists. -/
theorem enforceRun_append (db : Db) (u m : String) :
    ∀ (a b : List Nat) (st : GwState),
      enforceRun db u m st (a ++ b) =
        ((enforceRun db u m st a).fst ++
            (enforceRun db u m (enforceRun db u m st a).snd b).fst,
          (enforceRun db u m (enforceRun db u m st a).snd b).snd) := by
  intro a
  induction a with
  | nil => intro b st; rfl
  | cons t ts ih =>
    intro b st
    have h1 : enforceRun db u m st (t :: (ts ++ b)) =
        ((enforce_rate_limit db st t u m).fst ::
          (enforceRun db u m (enforce_rate_limit db st t u m).snd (ts ++ b)).fst,
         (enforceRun db u m (enforce_rate_limit db st t u m).snd (ts ++ b)).snd) := rfl
    have h2 : enforceRun db u m st (t :: ts) =
        ((enforce_rate_limit db st t u m).fst ::
          (enforceRun db u m (enforce_rate_limit db st t u m).snd ts).fst,
         (enforceRun db u m (enforce_rate_limit db st t u m).snd ts).snd) := rfl
    rw [List.cons_append, h1, ih, h2]
    simp

/-- Claim C1: for a policy with `max_requests = N` and
`window_seconds = W > 0`, among `enforce_rate_limit` calls for the same
(principal id, model version id) whose clock times all fall in one fixed
window (same `floor(now / W)`), starting from a fresh window counter the
first N calls are allowed and the (N+1)th is denied with HTTP 429 and
`retry_after_seconds = W - (now mod W)`, a value in `(0, W]`. -/
theorem rate_limit_window_exhaustion (db : Db) (u m : String)
    (p : RateLimitPolicy) (w : Nat) (init : List Nat) (tlast : Nat)
    (st : GwState)
    (hdb : get_policy_from_db db u m = .ok p)
    (hW : 0 < p.window_seconds)
    (hlen : init.length = p.max_requests)
    (hinit : ∀ t ∈ init, t / p.window_seconds = w)
    (hlast : tlast / p.window_seconds = w)
    (hreach : st.redis.reachable = true)
    (hcache : ∀ e q, getAssoc st.cache (u, m) = some (e, q) → q = p)
    (hctr : counterVal st.redis ⟨u, m, w⟩ = 0) :
    (enforceRun db u m st (init ++ [tlast])).fst =
      List.replicate p.max_requests (.ok ()) ++
        [.error (.httpError 429 "Rate limit exceeded"
          (some (p.window_seconds - tlast % p.window_seconds)))] ∧
    0 < p.window_seconds - tlast % p.window_seconds ∧
    p.window_seconds - tlast % p.window_seconds ≤ p.window_seconds := by
  obtain ⟨hfst, hreach', hcache', hctr'⟩ :=
    enforceRun_window db u m p w hdb init st 0 hinit hreach hcache hctr
      (by omega)
  obtain ⟨stF, hden⟩ :=
    enforce_step_denied db u m p w (enforceRun db u m st init).snd tlast
      init.length hdb hlast hreach' hcache' (by simpa using hctr')
      (by omega)
  have hmod : tlast % p.window_seconds < p.window_seconds :=
    Nat.mod_lt tlast hW
  refine ⟨?_, by omega, by omega⟩
  rw [enforceRun_append, enforceRun_single, hden, hfst, hlen]

/-- Witness for C1 at the seeded fixture: policy `pol1` has window 60
and quota 2; calls at times 0, 1, 2 give allowed, allowed, denied with
`Retry-After: 58`. -/
theorem rate_limit_window_exhaustion_witness :
    (enforceRun allowDb "u1" "mv1" st0 ([0, 1] ++ [2])).fst =
      List.replicate 2 (.ok ()) ++
        [.error (.httpError 429 "Rate limit exceeded" (some 58))] ∧
    0 < 58 ∧ (58 : Nat) ≤ 60 :=
  rate_limit_window_exhaustion allowDb "u1" "mv1" pol1 0 [0, 1] 2 st0
    (by decide) (by decide) (by decide) (by decide) (by decide) rfl
    (by intro e q h; simp [st0, getAssoc] at h) rfl

/-- Claim C2 (bug evidence): with an explicit `allowed = false`
permission row carrying a policy, the request is dispatched to the
provider and succeeds (no 403 is ever produced, because
`_get_policy_from_db` never filters on `allowed`); and with no
permission row at all the policy lookup raises the bare
`Exception("No rate limit policy found.")`, which surfaces as HTTP 500,
not as 403 Forbidden. -/
theorem deny_row_still_dispatches :
    (infer denyDb st0 0 "u1" "gpt-4o-mini" "v1" "hi" okResp).fst =
      .ok "hello" ∧
    get_policy_from_db noRowDb "u1" "mv1" =
      .error (.unhandled "No rate limit policy found.") ∧
    GatewayError.status (.unhandled "No rate limit policy found.") = 500 := by
  refine ⟨by decide, by decide, rfl⟩

/-- Claim C6 (bug evidence): a 200 upstream response whose JSON lacks
an `output_text` item makes `call_openai` fall off the end and return
`None` rather than raising the uniform 502 `UpstreamError`; the `None`
then fails the `PredictResponse` model validation, surfacing as an
internal error. -/
theorem call_openai_missing_output_returns_none :
    call_openai (some acct1) "gpt-4o-mini" "hi"
        (.response 200 "raw" (some (.obj []))) = .ok none ∧
    (infer allowDb st0 0 "u1" "gpt-4o-mini" "v1" "hi"
        (.response 200 "raw" (some (.obj [])))).fst =
      .error (.unhandled "pydantic ValidationError: output must be a string") := by
  refine ⟨by decide, by decide⟩

/-- Claim C9: an unknown (model name, version) pair terminates with 404
before the rate-limit step: the returned state is exactly the input
state — no counter is created or incremented, no cache write happens,
and the policy DB query counter is unchanged. -/
theorem unknown_model_404_frame (db : Db) (st : GwState) (now : Nat)
    (principal_id model_name version text : String) (up : HttpxResult)
    (h : modelVersionLookup db model_name version = []) :
    infer db st now principal_id model_name version text up =
      (.error (.httpError 404 "Unknown model/version" none), st) := by
  unfold infer
  rw [h]

/-- Witness for C9: a request for an unseeded model/version pair. -/
theorem unknown_model_404_frame_witness :
    infer allowDb st0 5 "u1" "missing-model" "v9" "hi" okResp =
      (.error (.httpError 404 "Unknown model/version" none), st0) :=
  unknown_model_404_frame allowDb st0 5 "u1" "missing-model" "v9" "hi"
    okResp (by decide)

/-- Claim C3 (counterexample): with an applicable `allowed = true` row
whose `policy_id` is NULL, the rate-limit check does not "always allow":
it raises `Exception("No rate limit policy found.")` (the inner join
requires a policy), so the request fails instead. -/
theorem unlimited_policy_claim_refuted :
    (enforce_rate_limit unlimitedDb st0 0 "u1" "mv1").fst =
      .error (.unhandled "No rate limit policy found.") ∧
    (enforce_rate_limit unlimitedDb st0 0 "u1" "mv1").fst ≠ .ok () := by
  refine ⟨by decide, by decide⟩

/-- Claim C3 (amended): when every permission row applicable to the
(principal, model version) pair carries no policy (`policy_id` NULL) —
other rows in the directory may carry policies — and the cache holds no
binding for the pair, the policy join is empty, so `enforce_rate_limit`
performs the one directory query and then fails with the bare
`Exception("No rate limit policy found.")` (surfaced as HTTP 500)
instead of allowing the request as unlimited. -/
theorem null_policy_rows_error (db : Db) (st : GwState) (now : Nat)
    (u m : String)
    (hnp : ∀ gmp ∈ db.group_model_permissions,
      applicablePerm db u m gmp = true → gmp.policy_id = none)
    (hc : getAssoc st.cache (u, m) = none) :
    enforce_rate_limit db st now u m =
      (.error (.unhandled "No rate limit policy found."),
        { st with dbCalls := st.dbCalls + 1 }) := by
  have hjoin : joinRows db u m = [] := by
    unfold joinRows
    rw [List.filter_eq_nil_iff]
    intro p hp
    simp only [Bool.not_eq_true, List.any_eq_false]
    intro gmp hgmp
    rcases hb : applicablePerm db u m gmp with _ | _
    · unfold applicablePerm at hb
      rw [Bool.and_assoc, hb, Bool.and_false]
    · rw [hnp gmp hgmp hb]
      rfl
  have hdb : get_policy_from_db db u m =
      .error (.unhandled "No rate limit policy found.") := by
    unfold get_policy_from_db
    rw [hjoin]
    rfl
  unfold enforce_rate_limit
  rw [get_policy_cached_missNone db st.cache now u m hc,
    policyFetch_err db st.cache now u m _ hdb]

/-- Witness for the amended C3, at the mixed fixture: the `mv1` row has
no policy while a sibling row for `mv2` carries `pol1`; the `mv1`
request still errors, after one directory query. -/
theorem null_policy_rows_error_witness :
    enforce_rate_limit mixedDb st0 7 "u1" "mv1" =
      (.error (.unhandled "No rate limit policy found."),
        { st0 with dbCalls := st0.dbCalls + 1 }) :=
  null_policy_rows_error mixedDb st0 7 "u1" "mv1" (by decide) rfl

/-- Claim C4 (counterexample): on a directory state where the principal
is in two groups with conflicting rows for the same model version
(`g1` denies with policy `p1`, `g2` allows with policy `p2`), resolution
does not deny: it returns `p1`, the deny row's policy; and listing the
same policy rows in the opposite order returns `p2` instead, so the
decision depends on row order, not only on the set of rows. -/
theorem conflict_resolution_order_dependent :
    get_policy_from_db conflictDb "u1" "mv1" = .ok ⟨"p1", 60, 0⟩ ∧
    get_policy_from_db conflictDbSwapped "u1" "mv1" = .ok ⟨"p2", 60, 1000⟩ ∧
    conflictDbSwapped =
      { conflictDb with
        rate_limit_policies := conflictDb.rate_limit_policies.reverse } ∧
    (⟨"p1", 60, 0⟩ : RateLimitPolicy) ≠ ⟨"p2", 60, 1000⟩ := by
  refine ⟨by decide, by decide, rfl, by decide⟩

/-- Claim C4 (amended): whenever any applicable joined row exists —
conflicting or not — resolution returns the first policy in the policy
table's iteration order and never raises or denies; conflicts between
groups are not detected. -/
theorem first_join_row_wins (db : Db) (u m : String)
    (h : joinRows db u m ≠ []) :
    ∃ p, get_policy_from_db db u m = .ok p ∧
      (joinRows db u m).head? = some p ∧ p ∈ joinRows db u m := by
  rcases hj : joinRows db u m with _ | ⟨p, rest⟩
  · exact absurd hj h
  · refine ⟨p, ?_, rfl, List.mem_cons_self p rest⟩
    unfold get_policy_from_db
    rw [hj]
    rfl

/-- Witness for the amended C4 at the conflicting fixture. -/
theorem first_join_row_wins_witness :
    ∃ p, get_policy_from_db conflictDb "u1" "mv1" = .ok p ∧
      (joinRows conflictDb "u1" "mv1").head? = some p ∧
      p ∈ joinRows conflictDb "u1" "mv1" :=
  first_join_row_wins conflictDb "u1" "mv1" (by decide)

/-- Claim C5 (counterexample): with the shared store unreachable, the
check denies — but the resulting error is the uncaught
`redis.exceptions.ConnectionError`, surfaced as HTTP 500, not as the
`DependencyUnavailable` / 503 the claim names. -/
theorem store_failure_surfaces_500 :
    (enforce_rate_limit allowDb stUnreach 0 "u1" "mv1").fst =
      .error (.unhandled "redis.exceptions.ConnectionError") ∧
    GatewayError.status (.unhandled "redis.exceptions.ConnectionError") = 500 ∧
    (500 : Nat) ≠ 503 := by
  refine ⟨by decide, rfl, by decide⟩

/-- Claim C5 (amended): with the shared counter store unreachable,
`enforce_rate_limit` never allows the request; it fails with an error
that surfaces as HTTP 500 (never the 429 of a rate-limit denial, and
not a typed 503). -/
theorem store_failure_fail_closed (db : Db) (st : GwState) (now : Nat)
    (u m : String) (h : st.redis.reachable = false) :
    ∃ e, (enforce_rate_limit db st now u m).fst = .error e ∧
      e.status = 500 := by
  unfold enforce_rate_limit
  rcases hg : get_policy_cached db st.cache now u m with e | ⟨p, cache1, n⟩
  · refine ⟨e, rfl, ?_⟩
    rw [get_policy_cached_error db st.cache now u m e hg]
    rfl
  · have hrc : rateCheck p st.redis now u m =
        (.error (.unhandled "redis.exceptions.ConnectionError"), st.redis) := by
      unfold rateCheck redisIncr
      simp [h]
    refine ⟨.unhandled "redis.exceptions.ConnectionError", ?_, rfl⟩
    simp only [hrc]

/-- Witness for the amended C5 at the unreachable-store fixture. -/
theorem store_failure_fail_closed_witness :
    ∃ e, (enforce_rate_limit allowDb stUnreach 3 "u1" "mv1").fst =
      .error e ∧ e.status = 500 :=
  store_failure_fail_closed allowDb stUnreach 3 "u1" "mv1" rfl

/-- Claim C8 (counterexample): an unrecognized provider kind is rejected
with HTTP 400 `Unsupported provider: ...`, not the 404 the claim names. -/
theorem unsupported_provider_maps_to_400 :
    (infer anthropicDb st0 0 "u1" "gpt-4o-mini" "v1" "hi" okResp).fst =
      .error (.httpError 400 "Unsupported provider: anthropic" none) ∧
    (400 : Nat) ≠ 404 := by
  refine ⟨by decide, by decide⟩

/-- Claim C8 (amended): when the resolved model version's provider kind
is not the recognized `openai` variant and the rate-limit step passes,
the gateway rejects with HTTP 400 `Unsupported provider: {kind}` — a
status distinct from both 404 and the 502 used for upstream failures —
and the routing branch depends only on `mv.provider`. -/
theorem unsupported_provider_rejected (db : Db) (st stA : GwState)
    (now : Nat) (principal_id model_name version text : String)
    (up : HttpxResult) (mv : ModelVersion)
    (hmv : modelVersionLookup db model_name version = [mv])
    (hprov : (mv.provider == "openai") = false)
    (hrl : enforce_rate_limit db st now principal_id mv.id = (.ok (), stA)) :
    infer db st now principal_id model_name version text up =
      (.error (.httpError 400 ("Unsupported provider: " ++ mv.provider) none),
        stA) ∧
    (400 : Nat) ≠ 404 ∧ (400 : Nat) ≠ 502 := by
  refine ⟨?_, by decide, by decide⟩
  unfold infer
  rw [hmv]
  simp only [hrl, hprov, Bool.false_eq_true, if_false]

/-- Witness for the amended C8 at the `anthropic` fixture. -/
theorem unsupported_provider_rejected_witness :
    infer anthropicDb st0 3 "u1" "gpt-4o-mini" "v1" "hi" okResp =
      (.error (.httpError 400 ("Unsupported provider: " ++ "anthropic") none),
        (enforce_rate_limit anthropicDb st0 3 "u1" "mv1").snd) :=
  (unsupported_provider_rejected anthropicDb st0
      (enforce_rate_limit anthropicDb st0 3 "u1" "mv1").snd 3 "u1"
      "gpt-4o-mini" "v1" "hi" okResp
      ⟨"mv1", "mo1", "v1", "anthropic", "acct1", none⟩
      (by decide) (by decide) (by decide)).1

/-- Claim C7: (i) starting from no cache binding for the pair, a
successful resolution performs exactly one DB query, and a second
resolution strictly within the 5-minute TTL is served from the cache —
same policy, cache untouched, zero DB queries; (ii) a binding at or past
its expiry is treated as a miss: the stale value is never returned and
the DB is queried (once on success, propagating the error on failure). -/
theorem policy_cache_single_query :
    (∀ (db : Db) (cache : PolicyCache) (now1 now2 : Nat) (u m : String)
        (p : RateLimitPolicy) (c1 : PolicyCache) (n1 : Nat),
      getAssoc cache (u, m) = none →
      get_policy_cached db cache now1 u m = .ok (p, c1, n1) →
      now2 < now1 + CACHE_TTL →
      n1 = 1 ∧ get_policy_cached db c1 now2 u m = .ok (p, c1, 0)) ∧
    (∀ (db : Db) (cache : PolicyCache) (now : Nat) (u m : String)
        (exp : Nat) (q : RateLimitPolicy),
      getAssoc cache (u, m) = some (exp, q) → exp ≤ now →
      (∀ p1, get_policy_from_db db u m = .ok p1 →
        get_policy_cached db cache now u m =
          .ok (p1, setAssoc cache (u, m) (now + CACHE_TTL, p1), 1)) ∧
      (∀ e, get_policy_from_db db u m = .error e →
        get_policy_cached db cache now u m = .error e)) := by
  constructor
  · intro db cache now1 now2 u m p c1 n1 hc h1 h2
    rw [get_policy_cached_missNone db cache now1 u m hc] at h1
    rcases hdb : get_policy_from_db db u m with e | p1
    · rw [policyFetch_err db cache now1 u m e hdb] at h1
      cases h1
    · rw [policyFetch_ok db cache now1 u m p1 hdb] at h1
      have h1' := Except.ok.inj h1
      have hp : p1 = p := congrArg Prod.fst h1'
      have hrest := congrArg Prod.snd h1'
      have hcac : setAssoc cache (u, m) (now1 + CACHE_TTL, p1) = c1 :=
        congrArg Prod.fst hrest
      have hn : (1 : Nat) = n1 := congrArg Prod.snd hrest
      refine ⟨hn.symm, ?_⟩
      rw [← hcac, ← hp]
      exact get_policy_cached_hit db _ now2 u m (now1 + CACHE_TTL) p1
        (getAssoc_setAssoc_self cache (u, m) (now1 + CACHE_TTL, p1)) h2
  · intro db cache now u m exp q hc hle
    constructor
    · intro p1 hdb
      rw [get_policy_cached_missExpired db cache now u m exp q hc (by omega)]
      exact policyFetch_ok db cache now u m p1 hdb
    · intro e hdb
      rw [get_policy_cached_missExpired db cache now u m exp q hc (by omega)]
      exact policyFetch_err db cache now u m e hdb

/-- Witness for C7: a warm hit within the TTL, and an expired entry
(stale value `polStale`) that is bypassed in favor of a fresh DB fetch
of `pol1`. -/
theorem policy_cache_single_query_witness :
    (1 = 1 ∧ get_policy_cached allowDb
        (setAssoc ([] : PolicyCache) ("u1", "mv1") (100 + CACHE_TTL, pol1))
        150 "u1" "mv1" =
      .ok (pol1,
        setAssoc ([] : PolicyCache) ("u1", "mv1") (100 + CACHE_TTL, pol1),
        0)) ∧
    get_policy_cached allowDb [(("u1", "mv1"), (5, polStale))] 10 "u1" "mv1" =
      .ok (pol1,
        setAssoc [(("u1", "mv1"), (5, polStale))] ("u1", "mv1")
          (10 + CACHE_TTL, pol1),
        1) := by
  constructor
  · exact policy_cache_single_query.1 allowDb [] 100 150 "u1" "mv1" pol1 _ 1
      rfl rfl (by decide)
  · exact (policy_cache_single_query.2 allowDb [(("u1", "mv1"), (5, polStale))]
      10 "u1" "mv1" 5 polStale rfl (by decide)).1 pol1 rfl

/-- Claim C10: `authenticate_request` returns a Principal only for a
token whose decoded `sub` claim is a string that parses as a UUID naming
a user present in the directory at request time; a correctly decoded,
unexpired token whose subject user is absent (deleted), or whose `sub`
does not parse as a UUID, is rejected with the 401 credentials error —
identity is re-verified against the directory on every request. -/
theorem authenticate_request_directory_check :
    (∀ (db : Db) (f : String → Option String) (d : JwtDecode)
        (p : Principal),
      authenticate_request db f d = .ok p →
      ∃ u, u ∈ db.users ∧ u.id = p.id ∧ u.username = p.username) ∧
    (∀ (db : Db) (f : String → Option String)
        (payload : List (String × JVal)) (sub uid : String),
      lookupField payload "sub" = some (.str sub) → f sub = some uid →
      db.users.find? (fun u => u.id == uid) = none →
      authenticate_request db f (.valid payload) =
        .error (.httpError 401 "Could not validate credentials" none)) ∧
    (∀ (db : Db) (f : String → Option String)
        (payload : List (String × JVal)) (sub : String),
      lookupField payload "sub" = some (.str sub) → f sub = none →
      authenticate_request db f (.valid payload) =
        .error (.httpError 401 "Could not validate credentials" none)) := by
  refine ⟨?_, ?_, ?_⟩
  · intro db f d p h
    unfold authenticate_request at h
    split at h
    · cases h
    · cases h
    · split at h
      · split at h
        · cases h
        · split at h
          · cases h
          · rename_i u heq
            injection h with h
            exact ⟨u, List.mem_of_find?_eq_some heq,
              by rw [← h], by rw [← h]⟩
      · cases h
  · intro db f payload sub uid hs hf hu
    unfold authenticate_request
    simp only [hs, hf, hu]
  · intro db f payload sub hs hf
    unfold authenticate_request
    simp only [hs, hf]

/-- Witness for C10: a decodable token with a parseable `sub` whose
user is not in the directory is rejected with 401. -/
theorem authenticate_request_directory_check_witness :
    authenticate_request allowDb
        (fun s => if s == "good" then some "ghost" else none)
        (.valid [("sub", .str "good")]) =
      .error (.httpError 401 "Could not validate credentials" none) :=
  authenticate_request_directory_check.2.1 allowDb
    (fun s => if s == "good" then some "ghost" else none)
    [("sub", .str "good")] "good" "ghost" rfl (by decide) (by decide)

end Gateway
